import Mathlib

/-!
Shallow embedding of the SLAM processor of `src/modules/slam.py`
(class `SLAMProcessor`).

Modelling conventions:
* Python floats are modelled as exact rationals `ℚ`.
* The 100×100 `numpy` occupancy grid (`int8`) is modelled as a total function
  `ℤ → ℤ → ℤ`; the code only reads/writes it at indices that passed the
  explicit bounds checks, so the values outside `[0,100)×[0,100)` are inert.
* OpenCV operations whose results the module merely consumes
  (`BFMatcher.match`, `findHomography`, `detectAndCompute`) are inputs of a
  cycle: a `CycleInput` carries the grayscale frame token, the detected
  keypoints, the (optional) descriptor object, the raw match list the matcher
  would return, and the (optional) homography `findHomography` would return.
* `math.atan2(y, x) * 180 / pi` is kept abstract as a function parameter
  `at2 : ℚ → ℚ → ℚ`; the module never inspects the value it produces.
* One processing cycle (`_process_frame`, lines 101-167) is embedded as a
  list of atomic actions, one per lock-protected block (plus the unlocked
  reference-frame store), so that the interleaving of a concurrent snapshot
  reader with an in-flight cycle can be analysed: the reader (`get_data`,
  lines 238-252) takes the same lock, hence observes the state exactly at a
  boundary between those actions.
-/

namespace Slam

/-- A pose-position dictionary `{'x':…, 'y':…, 'z':…}` (slam.py line 43);
also used for map points (line 209), which have the same shape. -/
structure Pose where
  x : ℚ
  y : ℚ
  z : ℚ
deriving DecidableEq, Repr

/-- The orientation dictionary `{'roll':…, 'pitch':…, 'yaw':…}` (slam.py line 44). -/
structure Orientation where
  roll : ℚ
  pitch : ℚ
  yaw : ℚ
deriving DecidableEq, Repr

/-- The occupancy grid (slam.py line 61): cell value at (row, column). -/
def Grid : Type := ℤ → ℤ → ℤ

/-- Write one grid cell: `occupancy_grid[row, col] = v`. -/
def gridSet (g : Grid) (row col : ℤ) (v : ℤ) : Grid :=
  fun r c => if r = row ∧ c = col then v else g r c

/-- The all-zero grid produced by `np.zeros` (slam.py line 61). -/
def zeroGrid : Grid := fun _ _ => 0

/-- A 3×3 homography matrix as returned by `cv2.findHomography`
(slam.py line 137); only the entries the module reads are named. -/
structure Homography where
  h00 : ℚ
  h02 : ℚ
  h10 : ℚ
  h12 : ℚ
deriving DecidableEq, Repr

/-- One `cv2.DMatch`: `queryIdx` (index into the previous frame's keypoints),
`trainIdx` (index into the current frame's keypoints), `distance`. -/
structure MatchT where
  query : ℕ
  train : ℕ
  dist : ℚ
deriving DecidableEq, Repr

/-- The mutable state of `SLAMProcessor` (slam.py lines 42-62) that the
processing cycle reads and writes. -/
structure SlamState where
  position : Pose
  orientation : Orientation
  map_points : List Pose
  trajectory : List Pose
  occupancy_grid : Grid
  last_frame : Option ℕ
  last_keypoints : Option (List (ℚ × ℚ))
  last_descriptors : Option ℕ

/-- `self.grid_size = 100` (slam.py line 59). -/
def grid_size : ℤ := 100

/-- `self.grid_resolution = 0.1` (slam.py line 60). -/
def grid_resolution : ℚ := 1/10

/-- `self.grid_center = (grid_size // 2, grid_size // 2)` (slam.py line 62). -/
def grid_center : ℤ × ℤ := (50, 50)

/-- The state right after `__init__` (slam.py lines 42-62): zero pose, empty
map and trajectory, all-zero occupancy grid, no reference frame stored. -/
def initState : SlamState where
  position := ⟨0, 0, 0⟩
  orientation := ⟨0, 0, 0⟩
  map_points := []
  trajectory := []
  occupancy_grid := zeroGrid
  last_frame := none
  last_keypoints := none
  last_descriptors := none

/-- Python `int(q)` on a float: truncation toward zero
(`|num| / den` by natural division, then the sign restored). -/
def pyInt (q : ℚ) : ℤ :=
  if q.num < 0 then -((q.num.natAbs / q.den : ℕ) : ℤ) else ((q.num.natAbs / q.den : ℕ) : ℤ)

/-- Python `xs[-n:]`: the last `n` elements (the whole list when shorter). -/
def lastN (n : ℕ) (xs : List α) : List α := xs.drop (xs.length - n)

/-- The robot's grid cell `(grid_x, grid_y)` as the code computes it
(slam.py lines 221-222): `int(center + position / resolution)` per axis —
truncation applied to the sum. -/
def robotCell (p : Pose) : ℤ × ℤ :=
  (pyInt ((grid_center.1 : ℚ) + p.x / grid_resolution),
   pyInt ((grid_center.2 : ℚ) + p.y / grid_resolution))

/-- The loop ranges `range(-2, 3)` of slam.py lines 230-231. -/
def deltas : List ℤ := [-2, -1, 0, 1, 2]

/-- The free-space-marking loop of `_update_occupancy_grid` (slam.py lines
230-236) around the center cell `(gx, gy)`: every in-bounds cell of the 5×5
neighborhood other than the center whose value is below 50 is set to 0. -/
def freeMark (gx gy : ℤ) (g : Grid) : Grid :=
  deltas.foldl (fun ga dx =>
    deltas.foldl (fun gb dy =>
      if (0 ≤ gx + dx ∧ gx + dx < grid_size ∧ 0 ≤ gy + dy ∧ gy + dy < grid_size) ∧
          (dx ≠ 0 ∨ dy ≠ 0) then
        if gb (gy + dy) (gx + dx) < 50 then gridSet gb (gy + dy) (gx + dx) 0 else gb
      else gb) ga) g

/-- `_update_occupancy_grid` (slam.py lines 218-236): if the robot cell is in
bounds, mark it occupied (100) and run the free-space-marking loop; if the
robot cell is out of bounds, do nothing. -/
def updateOccupancyGrid (position : Pose) (grid : Grid) : Grid :=
  let grid_x := (robotCell position).1
  let grid_y := (robotCell position).2
  if 0 ≤ grid_x ∧ grid_x < grid_size ∧ 0 ≤ grid_y ∧ grid_y < grid_size then
    freeMark grid_x grid_y (gridSet grid grid_y grid_x 100)
  else grid

/-- Append with a cap (slam.py lines 165-167 and 211-213): append one element
and, when the cap is exceeded, keep only the most recent `cap` elements. -/
def appendCapped (cap : ℕ) (xs : List α) (x : α) : List α :=
  let t := xs ++ [x]
  if t.length > cap then lastN cap t else t

/-- `_update_position_from_homography` (slam.py lines 169-190), one
lock-protected block: `position.x += H[0,2]*0.01`, `position.y += H[1,2]*0.01`,
`yaw = atan2(H[1,0], H[0,0]) * 180 / pi` (overwritten, not accumulated);
`at2` is the abstract atan2-in-degrees. -/
def updatePositionFromHomography (at2 : ℚ → ℚ → ℚ) (H : Homography)
    (s : SlamState) : SlamState :=
  { s with
    position := { s.position with
                  x := s.position.x + H.h02 * (1/100),
                  y := s.position.y + H.h12 * (1/100) }
    orientation := { s.orientation with yaw := at2 H.h10 H.h00 } }

/-- Project a matched keypoint to world coordinates (slam.py lines 204-206):
`x = position.x + (kp.x - 320) * 0.01`, `y = position.y + (kp.y - 240) * 0.01`,
`z = 0`. -/
def projectPoint (position : Pose) (kp : ℚ × ℚ) : Pose :=
  ⟨position.x + (kp.1 - 320) * (1/100),
   position.y + (kp.2 - 240) * (1/100), 0⟩

/-- `_update_map` (slam.py lines 192-216), one lock-protected block: for each
accepted match append the projected current-frame keypoint (capped at 1000
inside the loop, oldest evicted), then update the occupancy grid from the
current position. -/
def updateMap (keypoints : List (ℚ × ℚ)) (ms : List MatchT)
    (s : SlamState) : SlamState :=
  { s with
    map_points := ms.foldl
      (fun acc m => appendCapped 1000 acc (projectPoint s.position (keypoints.getD m.train (0, 0))))
      s.map_points
    occupancy_grid := updateOccupancyGrid s.position s.occupancy_grid }

/-- The sensor-fusion block (slam.py lines 151-154), one lock-protected block:
copy the IMU roll/pitch into the orientation; yaw untouched. -/
def fuseOrientation (roll pitch : ℚ) (s : SlamState) : SlamState :=
  { s with orientation := { s.orientation with roll := roll, pitch := pitch } }

/-- The trajectory append with its cap (slam.py lines 162-167), one
lock-protected block: append a copy of the current position, keep the last 100. -/
def appendTrajectory (s : SlamState) : SlamState :=
  { s with trajectory := appendCapped 100 s.trajectory s.position }

/-- The per-cycle inputs: the grayscale frame token, the ORB detection result
(keypoints and optional descriptors, slam.py line 112), the raw match list the
matcher would return for (previous, current) descriptors (line 123), the
optional homography `findHomography` would return (line 137), and the IMU
orientation snapshot (line 148). -/
structure CycleInput where
  gray : ℕ
  keypoints : List (ℚ × ℚ)
  descriptors : Option ℕ
  rawMatches : List MatchT
  homography : Option Homography
  imuRoll : ℚ
  imuPitch : ℚ

/-- The unlocked reference-frame store (slam.py lines 116-118 and 156-159):
`last_frame`, `last_keypoints`, `last_descriptors` become those of the
just-processed frame. -/
def storeFrame (inp : CycleInput) (s : SlamState) : SlamState :=
  { s with
    last_frame := some inp.gray
    last_keypoints := some inp.keypoints
    last_descriptors := inp.descriptors }

/-- Stable insertion of a match into a distance-sorted list (Python `sorted`
with `key=lambda x: x.distance` is stable ascending). -/
def insertByDist (m : MatchT) : List MatchT → List MatchT
  | [] => [m]
  | x :: xs => if m.dist < x.dist then m :: x :: xs else x :: insertByDist m xs

/-- `sorted(matches, key=lambda x: x.distance)` (slam.py line 126). -/
def sortByDist : List MatchT → List MatchT
  | [] => []
  | x :: xs => insertByDist x (sortByDist xs)

/-- `matches[:min(30, len(matches))]` after sorting (slam.py lines 126-129). -/
def goodMatches (ms : List MatchT) : List MatchT :=
  (sortByDist ms).take (min 30 (sortByDist ms).length)

/-- The guard of slam.py line 122: both frames have keypoints and descriptors. -/
def matchGuard (inp : CycleInput) (s : SlamState) : Prop :=
  0 < inp.keypoints.length ∧ 0 < (s.last_keypoints.getD []).length ∧
    inp.descriptors ≠ none ∧ s.last_descriptors ≠ none

instance (inp : CycleInput) (s : SlamState) : Decidable (matchGuard inp s) := by
  unfold matchGuard; infer_instance

/-- The visual part of `_process_frame` (slam.py lines 122-144): the
pose-update and map-update blocks run only when the guard holds, at least 8
good matches survive the top-30 selection, and a homography is found;
otherwise the visual part contributes nothing. -/
def visualActions (at2 : ℚ → ℚ → ℚ) (inp : CycleInput) (s : SlamState) :
    List (SlamState → SlamState) :=
  if matchGuard inp s then
    if 8 ≤ (goodMatches inp.rawMatches).length then
      match inp.homography with
      | some H => [updatePositionFromHomography at2 H,
                   updateMap inp.keypoints (goodMatches inp.rawMatches)]
      | none => []
    else []
  else []

/-- The bootstrap test of slam.py line 115. -/
def isBootstrap (s : SlamState) : Prop :=
  s.last_frame = none ∨ s.last_keypoints = none ∨ s.last_descriptors = none

instance (s : SlamState) : Decidable (isBootstrap s) := by
  unfold isBootstrap; infer_instance

/-- `_process_frame` (slam.py lines 101-167) as its list of atomic actions.
The bootstrap branch (lines 115-119) stores the frame and returns.  Every
non-bootstrap cycle runs the visual actions, then sensor fusion, the
reference-frame store, and the trajectory append (lines 146-167).  Each list
element is one lock-protected block (the store is unlocked, but the snapshot
readers cannot see the fields it writes). -/
def cycleActions (at2 : ℚ → ℚ → ℚ) (inp : CycleInput) (s : SlamState) :
    List (SlamState → SlamState) :=
  if isBootstrap s then
    [storeFrame inp]
  else
    visualActions at2 inp s ++
      [fuseOrientation inp.imuRoll inp.imuPitch, storeFrame inp, appendTrajectory]

/-- Run a list of actions in order. -/
def applyActions (acts : List (SlamState → SlamState)) (s : SlamState) : SlamState :=
  acts.foldl (fun t a => a t) s

/-- One whole processing cycle. -/
def processFrame (at2 : ℚ → ℚ → ℚ) (inp : CycleInput) (s : SlamState) : SlamState :=
  applyActions (cycleActions at2 inp s) s

/-- The state a concurrent snapshot reader observes when it acquires the lock
after the first `k` atomic actions of an in-flight cycle. -/
def snapshotAt (at2 : ℚ → ℚ → ℚ) (inp : CycleInput) (s : SlamState) (k : ℕ) : SlamState :=
  applyActions ((cycleActions at2 inp s).take k) s

/-- Any number of processed cycles in sequence. -/
def runCycles (at2 : ℚ → ℚ → ℚ) (s : SlamState) (inps : List CycleInput) : SlamState :=
  inps.foldl (fun t i => processFrame at2 i t) s

/-- `get_data` (slam.py lines 238-252): the reader-visible snapshot. -/
structure Snapshot where
  position : Pose
  orientation : Orientation
  trajectory : List Pose
  map_size : ℕ
  occupancy_grid : Grid

/-- `get_data` takes the lock and copies out the visible state. -/
def get_data (s : SlamState) : Snapshot :=
  ⟨s.position, s.orientation, s.trajectory, s.map_points.length, s.occupancy_grid⟩

/-- `get_position` (slam.py lines 254-262). -/
def get_position (s : SlamState) : Pose := s.position

/-- `get_orientation` (slam.py lines 264-272). -/
def get_orientation (s : SlamState) : Orientation := s.orientation

/-- The robot grid cell as described by the claim/spec sentence
"grid_center + position / resolution with the quotient rounded toward zero
per axis" — truncation applied to the quotient before adding the center.
Stated from the spec's words, for comparison with `robotCell`. -/
def robotCellClaimed (p : Pose) : ℤ × ℤ :=
  (grid_center.1 + pyInt (p.x / grid_resolution),
   grid_center.2 + pyInt (p.y / grid_resolution))

/-! ### Aliasing model for the snapshot accessors

`get_data` (slam.py lines 238-252) returns `self.position.copy()`,
`self.orientation.copy()`, `self.trajectory.copy()` and
`self.occupancy_grid.copy()`.  The dict and array copies duplicate their
(immutable-float) contents, but `list.copy()` is a shallow copy: the returned
list is a fresh object whose elements are the same pose-dict references that
the internal trajectory holds (each appended as `self.position.copy()` at
line 163).  To reason about this sharing we model the Python object store:
pose dictionaries and lists of dict references, addressed by naturals. -/

/-- The Python object store: pose dicts and list objects, by address. -/
structure PyHeap where
  dictAt : ℕ → Pose
  listAt : ℕ → List ℕ

/-- Mutate one pose dict in place (what a caller can do to a returned dict). -/
def writeDict (h : PyHeap) (r : ℕ) (p : Pose) : PyHeap :=
  { h with dictAt := fun q => if q = r then p else h.dictAt q }

/-- Replace one list object's contents in place. -/
def writeList (h : PyHeap) (r : ℕ) (xs : List ℕ) : PyHeap :=
  { h with listAt := fun q => if q = r then xs else h.listAt q }

/-- slam.py line 249: `'trajectory': self.trajectory.copy()` — allocate a
fresh list object at `fresh` holding the same pose-dict references as the
internal trajectory list at `trajRef` (shallow copy). -/
def copyTrajectory (h : PyHeap) (trajRef fresh : ℕ) : PyHeap :=
  writeList h fresh (h.listAt trajRef)

/-- slam.py line 247: `'position': self.position.copy()` — allocate a fresh
pose dict at `fresh` with the same field values as the dict at `posRef`. -/
def copyPosition (h : PyHeap) (posRef fresh : ℕ) : PyHeap :=
  writeDict h fresh (h.dictAt posRef)

/-- The pose values an observer reads through a trajectory list object. -/
def viewTrajectory (h : PyHeap) (r : ℕ) : List Pose :=
  (h.listAt r).map h.dictAt

/-- A store with the internal trajectory at list address 0 holding one pose
dict at address 5. -/
def heap0 : PyHeap :=
  ⟨fun _ => ⟨1, 2, 0⟩, fun r => if r = 0 then [5] else []⟩

/-! ### Concrete sample data for witnesses and counterexamples -/

/-- A sample instantiation of the abstract atan2-in-degrees oracle, used only
to evaluate the embedding on concrete inputs. -/
def at2sample : ℚ → ℚ → ℚ := fun _ _ => 0

/-- A homography with translation (tx = 10, ty = 0) and identity-like
rotation block. -/
def sampleH : Homography := ⟨1, 10, 0, 0⟩

/-- A state that has already processed its bootstrap frame. -/
def readyState : SlamState :=
  { initState with
    last_frame := some 0
    last_keypoints := some [(0, 0)]
    last_descriptors := some 0 }

/-- A cycle input on which matching and homography estimation succeed. -/
def sampleInput : CycleInput :=
  { gray := 1, keypoints := [(320, 240)], descriptors := some 1,
    rawMatches := List.replicate 8 ⟨0, 0, 1⟩, homography := some sampleH,
    imuRoll := 5, imuPitch := 6 }

/-- A cycle input whose raw match list is empty, so matching fails. -/
def failInput : CycleInput :=
  { sampleInput with rawMatches := [], homography := none }

/-- A cycle input whose frame yields no descriptors. -/
def noDescInput : CycleInput :=
  { sampleInput with descriptors := none }

end Slam

set_option maxRecDepth 100000

namespace Slam

/-! ### Generic helper lemmas -/

theorem foldl_invariant {α β : Type _} (f : β → α → β) (P : β → Prop) (l : List α) :
    ∀ b : β, (∀ b' a, a ∈ l → P b' → P (f b' a)) → P b → P (l.foldl f b) := by
  induction l with
  | nil => intro b _ hb; exact hb
  | cons a l ih =>
    intro b h hb
    exact ih (f b a) (fun b' a' ha' => h b' a' (List.mem_cons_of_mem _ ha'))
      (h b a (List.mem_cons_self _ _) hb)

theorem lastN_of_le {xs : List α} {n : ℕ} (h : xs.length ≤ n) : lastN n xs = xs := by
  simp [lastN, Nat.sub_eq_zero_of_le h]

theorem length_lastN_le (n : ℕ) (xs : List α) : (lastN n xs).length ≤ n := by
  simp [lastN]; omega

theorem lastN_append_lastN (k : ℕ) (a b : List α) :
    lastN k (lastN k a ++ b) = lastN k (a ++ b) := by
  unfold lastN
  rw [← List.drop_append_of_le_length (Nat.sub_le a.length k), List.drop_drop]
  congr 1
  simp only [List.length_drop, List.length_append]
  omega

theorem appendCapped_eq_lastN (cap : ℕ) (xs : List α) (x : α) :
    appendCapped cap xs x = lastN cap (xs ++ [x]) := by
  simp only [appendCapped]
  split
  · rfl
  · rename_i h
    rw [lastN_of_le]
    omega

theorem length_appendCapped_le (cap : ℕ) (xs : List α) (x : α) :
    (appendCapped cap xs x).length ≤ cap := by
  simp only [appendCapped]
  split
  · exact length_lastN_le _ _
  · rename_i h
    simp only [List.length_append, List.length_singleton] at h ⊢
    omega

theorem foldl_appendCapped_eq {β : Type _} (cap : ℕ) (f : β → α) (ms : List β) :
    ∀ xs : List α, xs.length ≤ cap →
      ms.foldl (fun acc m => appendCapped cap acc (f m)) xs = lastN cap (xs ++ ms.map f) := by
  induction ms with
  | nil => intro xs h; simp [lastN_of_le h]
  | cons m ms ih =>
    intro xs h
    rw [List.foldl_cons, ih _ (length_appendCapped_le _ _ _), appendCapped_eq_lastN,
        lastN_append_lastN]
    simp [List.append_assoc]

/-! ### Branch structure of a processing cycle -/

theorem cycleActions_bootstrap {at2 : ℚ → ℚ → ℚ} {inp : CycleInput} {s : SlamState}
    (h : isBootstrap s) : cycleActions at2 inp s = [storeFrame inp] := by
  simp [cycleActions, h]

theorem cycleActions_ready {at2 : ℚ → ℚ → ℚ} {inp : CycleInput} {s : SlamState}
    (h : ¬ isBootstrap s) :
    cycleActions at2 inp s = visualActions at2 inp s ++
      [fuseOrientation inp.imuRoll inp.imuPitch, storeFrame inp, appendTrajectory] := by
  simp [cycleActions, h]

theorem visualActions_nil_of_insufficient {at2 : ℚ → ℚ → ℚ} {inp : CycleInput} {s : SlamState}
    (h : (goodMatches inp.rawMatches).length < 8 ∨ inp.homography = none) :
    visualActions at2 inp s = [] := by
  unfold visualActions
  split
  · rcases h with h | h
    · rw [if_neg (by omega)]
    · rw [h]
      split <;> rfl
  · rfl

theorem visualActions_success {at2 : ℚ → ℚ → ℚ} {inp : CycleInput} {s : SlamState}
    {H : Homography} (hg : matchGuard inp s)
    (hn : 8 ≤ (goodMatches inp.rawMatches).length) (hH : inp.homography = some H) :
    visualActions at2 inp s =
      [updatePositionFromHomography at2 H,
       updateMap inp.keypoints (goodMatches inp.rawMatches)] := by
  simp [visualActions, hg, hn, hH]

theorem processFrame_bootstrap {at2 : ℚ → ℚ → ℚ} {inp : CycleInput} {s : SlamState}
    (h : isBootstrap s) : processFrame at2 inp s = storeFrame inp s := by
  simp [processFrame, cycleActions_bootstrap h, applyActions]

theorem processFrame_ready {at2 : ℚ → ℚ → ℚ} {inp : CycleInput} {s : SlamState}
    (h : ¬ isBootstrap s) :
    processFrame at2 inp s =
      appendTrajectory (storeFrame inp (fuseOrientation inp.imuRoll inp.imuPitch
        (applyActions (visualActions at2 inp s) s))) := by
  simp [processFrame, cycleActions_ready h, applyActions]

end Slam

namespace Slam

/-! ### Occupancy-grid lemmas -/

theorem gridSet_ne {g : Grid} {row col r c v : ℤ} (h : ¬(r = row ∧ c = col)) :
    gridSet g row col v r c = g r c := by
  simp only [gridSet, if_neg h]

theorem gridSet_self (g : Grid) (row col v : ℤ) : gridSet g row col v row col = v := by
  simp [gridSet]

theorem freeMark_occupied_le {gx gy r c : ℤ} {g : Grid} (h : 50 ≤ g r c) :
    50 ≤ freeMark gx gy g r c := by
  unfold freeMark
  apply foldl_invariant _ (fun g' : Grid => 50 ≤ g' r c)
  · intro gb dx _ hgb
    apply foldl_invariant _ (fun g' : Grid => 50 ≤ g' r c)
    · intro gc dy _ hgc
      dsimp only
      split
      · split
        · rename_i hcond hlt
          by_cases hrc : r = gy + dy ∧ c = gx + dx
          · obtain ⟨h1, h2⟩ := hrc
            rw [← h1, ← h2] at hlt
            omega
          · rw [gridSet_ne hrc]
            exact hgc
        · exact hgc
      · exact hgc
    · exact hgb
  · exact h

theorem freeMark_changed {gx gy r c : ℤ} {g : Grid}
    (h : freeMark gx gy g r c ≠ g r c) :
    freeMark gx gy g r c = 0 ∧ g r c < 50 ∧
      0 ≤ c ∧ c < grid_size ∧ 0 ≤ r ∧ r < grid_size ∧
      (c - gx) ∈ deltas ∧ (r - gy) ∈ deltas ∧ ¬(c = gx ∧ r = gy) := by
  have key : freeMark gx gy g r c = g r c ∨
      (freeMark gx gy g r c = 0 ∧ g r c < 50 ∧
        0 ≤ c ∧ c < grid_size ∧ 0 ≤ r ∧ r < grid_size ∧
        (c - gx) ∈ deltas ∧ (r - gy) ∈ deltas ∧ ¬(c = gx ∧ r = gy)) := by
    unfold freeMark
    apply foldl_invariant _ (fun g' : Grid => g' r c = g r c ∨
      (g' r c = 0 ∧ g r c < 50 ∧ 0 ≤ c ∧ c < grid_size ∧ 0 ≤ r ∧ r < grid_size ∧
        (c - gx) ∈ deltas ∧ (r - gy) ∈ deltas ∧ ¬(c = gx ∧ r = gy)))
    · intro gb dx hdx hgb
      apply foldl_invariant _ (fun g' : Grid => g' r c = g r c ∨
        (g' r c = 0 ∧ g r c < 50 ∧ 0 ≤ c ∧ c < grid_size ∧ 0 ≤ r ∧ r < grid_size ∧
          (c - gx) ∈ deltas ∧ (r - gy) ∈ deltas ∧ ¬(c = gx ∧ r = gy)))
      · intro gc dy hdy hgc
        dsimp only
        split
        · split
          · rename_i hcond hlt
            by_cases hrc : r = gy + dy ∧ c = gx + dx
            · obtain ⟨h1, h2⟩ := hrc
              right
              refine ⟨by rw [h1, h2, gridSet_self], ?_, ?_, ?_, ?_, ?_, ?_, ?_, ?_⟩
              · rcases hgc with hgc | hgc
                · rw [← hgc]; rw [← h1, ← h2] at hlt; exact hlt
                · exact hgc.2.1
              · omega
              · omega
              · omega
              · omega
              · have : c - gx = dx := by omega
                rw [this]; exact hdx
              · have : r - gy = dy := by omega
                rw [this]; exact hdy
              · rintro ⟨e1, e2⟩
                rcases hcond.2 with hnz | hnz <;> omega
            · rw [gridSet_ne hrc]
              exact hgc
          · exact hgc
        · exact hgc
      · exact hgb
    · exact Or.inl rfl
  rcases key with hk | hk
  · exact absurd hk h
  · exact hk

theorem updateOccupancyGrid_occupied_le {p : Pose} {g : Grid} {r c : ℤ}
    (h : 50 ≤ g r c) : 50 ≤ updateOccupancyGrid p g r c := by
  unfold updateOccupancyGrid
  split
  · apply freeMark_occupied_le
    by_cases hc : r = (robotCell p).2 ∧ c = (robotCell p).1
    · obtain ⟨h1, h2⟩ := hc
      rw [h1, h2, gridSet_self]
      norm_num
    · rw [gridSet_ne hc]
      exact h
  · exact h

theorem updateOccupancyGrid_changed {p : Pose} {g : Grid} {r c : ℤ}
    (h : updateOccupancyGrid p g r c ≠ g r c) :
    (r = (robotCell p).2 ∧ c = (robotCell p).1 ∧ updateOccupancyGrid p g r c = 100) ∨
    (updateOccupancyGrid p g r c = 0 ∧ g r c < 50 ∧
      0 ≤ c ∧ c < grid_size ∧ 0 ≤ r ∧ r < grid_size ∧
      (c - (robotCell p).1) ∈ deltas ∧ (r - (robotCell p).2) ∈ deltas ∧
      ¬(c = (robotCell p).1 ∧ r = (robotCell p).2)) := by
  revert h
  unfold updateOccupancyGrid
  split
  · intro h
    by_cases hc : r = (robotCell p).2 ∧ c = (robotCell p).1
    · obtain ⟨h1, h2⟩ := hc
      left
      refine ⟨h1, h2, ?_⟩
      by_cases hch : freeMark (robotCell p).1 (robotCell p).2
          (gridSet g (robotCell p).2 (robotCell p).1 100) r c =
          gridSet g (robotCell p).2 (robotCell p).1 100 r c
      · rw [hch, h1, h2, gridSet_self]
      · rcases freeMark_changed hch with ⟨_, _, _, _, _, _, _, _, hcen⟩
        exact absurd ⟨h2, h1⟩ hcen
    · right
      have hg1 : gridSet g (robotCell p).2 (robotCell p).1 100 r c = g r c := gridSet_ne hc
      by_cases hch : freeMark (robotCell p).1 (robotCell p).2
          (gridSet g (robotCell p).2 (robotCell p).1 100) r c =
          gridSet g (robotCell p).2 (robotCell p).1 100 r c
      · rw [hg1] at hch
        exact absurd hch h
      · rcases freeMark_changed hch with ⟨hv, hlt, hb⟩
        rw [hg1] at hlt
        exact ⟨hv, hlt, hb⟩
  · intro h
    exact absurd rfl h

theorem updateOccupancyGrid_center {p : Pose} {g : Grid}
    (hb : 0 ≤ (robotCell p).1 ∧ (robotCell p).1 < grid_size ∧
          0 ≤ (robotCell p).2 ∧ (robotCell p).2 < grid_size) :
    updateOccupancyGrid p g (robotCell p).2 (robotCell p).1 = 100 := by
  unfold updateOccupancyGrid
  rw [if_pos hb]
  by_cases hch : freeMark (robotCell p).1 (robotCell p).2
      (gridSet g (robotCell p).2 (robotCell p).1 100) (robotCell p).2 (robotCell p).1 =
      gridSet g (robotCell p).2 (robotCell p).1 100 (robotCell p).2 (robotCell p).1
  · rw [hch, gridSet_self]
  · rcases freeMark_changed hch with ⟨_, _, _, _, _, _, _, _, hcen⟩
    exact absurd ⟨rfl, rfl⟩ hcen

theorem updateOccupancyGrid_oob {p : Pose} {g : Grid} {r c : ℤ}
    (hb : ¬(0 ≤ (robotCell p).1 ∧ (robotCell p).1 < grid_size ∧
            0 ≤ (robotCell p).2 ∧ (robotCell p).2 < grid_size)) :
    updateOccupancyGrid p g r c = g r c := by
  unfold updateOccupancyGrid
  rw [if_neg hb]

end Slam

namespace Slam

/-! ### Cycle-level lemmas -/

theorem visualActions_cases (at2 : ℚ → ℚ → ℚ) (inp : CycleInput) (s : SlamState) :
    visualActions at2 inp s = [] ∨
    ∃ H, inp.homography = some H ∧
      visualActions at2 inp s =
        [updatePositionFromHomography at2 H,
         updateMap inp.keypoints (goodMatches inp.rawMatches)] := by
  unfold visualActions
  split
  · split
    · cases hH : inp.homography with
      | some H => exact Or.inr ⟨H, rfl, rfl⟩
      | none => exact Or.inl rfl
    · exact Or.inl rfl
  · exact Or.inl rfl

theorem processFrame_grid_occupied_le {at2 : ℚ → ℚ → ℚ} {inp : CycleInput}
    {s : SlamState} {r c : ℤ} (h : 50 ≤ s.occupancy_grid r c) :
    50 ≤ (processFrame at2 inp s).occupancy_grid r c := by
  by_cases hb : isBootstrap s
  · rw [processFrame_bootstrap hb]
    exact h
  · rw [processFrame_ready hb]
    simp only [appendTrajectory, storeFrame, fuseOrientation]
    rcases visualActions_cases at2 inp s with hv | ⟨H, hH, hv⟩ <;> rw [hv]
    · exact h
    · simp only [applyActions, List.foldl_cons, List.foldl_nil, updateMap,
        updatePositionFromHomography]
      exact updateOccupancyGrid_occupied_le h

theorem runCycles_grid_occupied_le {at2 : ℚ → ℚ → ℚ} {inps : List CycleInput}
    {s : SlamState} {r c : ℤ} (h : 50 ≤ s.occupancy_grid r c) :
    50 ≤ (runCycles at2 s inps).occupancy_grid r c := by
  unfold runCycles
  apply foldl_invariant _ (fun t : SlamState => 50 ≤ t.occupancy_grid r c)
  · intro t i _ ht
    exact processFrame_grid_occupied_le ht
  · exact h

theorem processFrame_caps {at2 : ℚ → ℚ → ℚ} {inp : CycleInput} {s : SlamState}
    (ht : s.trajectory.length ≤ 100) (hm : s.map_points.length ≤ 1000) :
    (processFrame at2 inp s).trajectory.length ≤ 100 ∧
      (processFrame at2 inp s).map_points.length ≤ 1000 := by
  by_cases hb : isBootstrap s
  · rw [processFrame_bootstrap hb]
    exact ⟨ht, hm⟩
  · rw [processFrame_ready hb]
    simp only [appendTrajectory, storeFrame, fuseOrientation]
    refine ⟨length_appendCapped_le _ _ _, ?_⟩
    rcases visualActions_cases at2 inp s with hv | ⟨H, hH, hv⟩ <;> rw [hv]
    · exact hm
    · simp only [applyActions, List.foldl_cons, List.foldl_nil, updateMap,
        updatePositionFromHomography]
      rw [foldl_appendCapped_eq 1000 _ _ _ hm]
      exact length_lastN_le _ _

theorem runCycles_caps (at2 : ℚ → ℚ → ℚ) (inps : List CycleInput) :
    (runCycles at2 initState inps).trajectory.length ≤ 100 ∧
      (runCycles at2 initState inps).map_points.length ≤ 1000 := by
  unfold runCycles
  apply foldl_invariant _
    (fun t : SlamState => t.trajectory.length ≤ 100 ∧ t.map_points.length ≤ 1000)
  · intro t i _ ht
    exact processFrame_caps ht.1 ht.2
  · exact ⟨by simp [initState], by simp [initState]⟩

end Slam

namespace Slam

/-! ### Claim C2 -/

/-- C2: the claim states that at construction every cell of the occupancy
grid is "unknown", i.e. holds an integer in 1–49.  This is false: `__init__`
creates the grid with `np.zeros`, so every cell holds 0, which is the "free"
value of the tri-state encoding.  Counterexample: cell (0,0). -/
theorem c2_counterexample :
    initState.occupancy_grid 0 0 = 0 ∧
      ¬(1 ≤ initState.occupancy_grid 0 0 ∧ initState.occupancy_grid 0 0 ≤ 49) := by
  constructor
  · rfl
  · decide

/-- C2 amended: at SLAM-processor construction every cell of the occupancy
grid holds 0, the "free" value, before any cycle has run. -/
theorem c2_amended (r c : ℤ) : initState.occupancy_grid r c = 0 := rfl

/-! ### Claim C5 -/

/-- C5: occupied cells are monotonic.  (1) A cell at or above 50 stays at or
above 50 across one grid update; (2) it stays occupied across any number of
processing cycles; (3) the free-space rule writes 0 only to in-bounds cells of
the 5×5 neighborhood of the robot cell, other than the center, whose current
value is below 50 — any cell changed by a grid update is either the robot
cell set to 100 or such a neighborhood cell set to 0. -/
theorem c5_occupied_monotonic :
    (∀ (p : Pose) (g : Grid) (r c : ℤ), 50 ≤ g r c → 50 ≤ updateOccupancyGrid p g r c) ∧
    (∀ (at2 : ℚ → ℚ → ℚ) (s : SlamState) (inps : List CycleInput) (r c : ℤ),
        50 ≤ s.occupancy_grid r c → 50 ≤ (runCycles at2 s inps).occupancy_grid r c) ∧
    (∀ (p : Pose) (g : Grid) (r c : ℤ), updateOccupancyGrid p g r c ≠ g r c →
        (r = (robotCell p).2 ∧ c = (robotCell p).1 ∧ updateOccupancyGrid p g r c = 100) ∨
        (updateOccupancyGrid p g r c = 0 ∧ g r c < 50 ∧
          0 ≤ c ∧ c < grid_size ∧ 0 ≤ r ∧ r < grid_size ∧
          (c - (robotCell p).1) ∈ deltas ∧ (r - (robotCell p).2) ∈ deltas ∧
          ¬(c = (robotCell p).1 ∧ r = (robotCell p).2))) :=
  ⟨fun _ _ _ _ => updateOccupancyGrid_occupied_le,
   fun _ _ _ _ _ => runCycles_grid_occupied_le,
   fun _ _ _ _ => updateOccupancyGrid_changed⟩

/-- C5 witness: the three parts of `c5_occupied_monotonic` applied at concrete
inputs, with every hypothesis discharged by evaluation. -/
theorem c5_occupied_monotonic_witness :
    50 ≤ updateOccupancyGrid ⟨0, 0, 0⟩ (gridSet zeroGrid 50 50 100) 50 50 ∧
    50 ≤ (runCycles at2sample
        { readyState with occupancy_grid := gridSet zeroGrid 50 50 100 }
        [sampleInput]).occupancy_grid 50 50 ∧
    (((50 : ℤ) = (robotCell ⟨0, 0, 0⟩).2 ∧ (50 : ℤ) = (robotCell ⟨0, 0, 0⟩).1 ∧
        updateOccupancyGrid ⟨0, 0, 0⟩ zeroGrid 50 50 = 100) ∨
      (updateOccupancyGrid ⟨0, 0, 0⟩ zeroGrid 50 50 = 0 ∧ zeroGrid 50 50 < 50 ∧
        (0 : ℤ) ≤ 50 ∧ (50 : ℤ) < grid_size ∧ (0 : ℤ) ≤ 50 ∧ (50 : ℤ) < grid_size ∧
        ((50 : ℤ) - (robotCell ⟨0, 0, 0⟩).1) ∈ deltas ∧
        ((50 : ℤ) - (robotCell ⟨0, 0, 0⟩).2) ∈ deltas ∧
        ¬((50 : ℤ) = (robotCell ⟨0, 0, 0⟩).1 ∧ (50 : ℤ) = (robotCell ⟨0, 0, 0⟩).2))) := by
  refine ⟨c5_occupied_monotonic.1 ⟨0, 0, 0⟩ _ 50 50 (by decide),
    c5_occupied_monotonic.2.1 at2sample _ [sampleInput] 50 50 (by decide),
    c5_occupied_monotonic.2.2 ⟨0, 0, 0⟩ zeroGrid 50 50 ?_⟩
  have h1 : updateOccupancyGrid ⟨0, 0, 0⟩ zeroGrid 50 50 = 100 := by
    with_unfolding_all rfl
  rw [h1]
  decide

/-! ### Claim C9 -/

/-- C9 counterexample: the claim computes the robot cell as
`grid_center + trunc(position / resolution)` per axis (`robotCellClaimed`),
but the code truncates the whole sum `int(grid_center + position/resolution)`
(`robotCell`).  At position x = -0.05 the code's cell is (49, 50) while the
claim's is (50, 50); the grid update marks column 49 occupied and leaves the
claimed cell at 0. -/
theorem c9_counterexample :
    robotCell ⟨-1/20, 0, 0⟩ = (49, 50) ∧
    robotCellClaimed ⟨-1/20, 0, 0⟩ = (50, 50) ∧
    robotCell ⟨-1/20, 0, 0⟩ ≠ robotCellClaimed ⟨-1/20, 0, 0⟩ ∧
    updateOccupancyGrid ⟨-1/20, 0, 0⟩ zeroGrid 50 49 = 100 ∧
    updateOccupancyGrid ⟨-1/20, 0, 0⟩ zeroGrid 50 50 = 0 := by
  have h1 : robotCell ⟨-1/20, 0, 0⟩ = (49, 50) := by with_unfolding_all rfl
  have h2 : robotCellClaimed ⟨-1/20, 0, 0⟩ = (50, 50) := by with_unfolding_all rfl
  refine ⟨h1, h2, ?_, by with_unfolding_all rfl, by with_unfolding_all rfl⟩
  rw [h1, h2]
  decide

/-- C9 amended: the robot cell is `int(grid_center + position/resolution)`
per axis, truncation applied to the sum (this differs from truncating the
quotient only for negative coordinates); if that cell is in bounds it is set
to 100, and if it is out of bounds the entire grid is left unchanged, with no
error and no clamping. -/
theorem c9_amended (p : Pose) (g : Grid) (r c : ℤ) :
    (0 ≤ (robotCell p).1 ∧ (robotCell p).1 < grid_size ∧
       0 ≤ (robotCell p).2 ∧ (robotCell p).2 < grid_size →
      updateOccupancyGrid p g (robotCell p).2 (robotCell p).1 = 100) ∧
    (¬(0 ≤ (robotCell p).1 ∧ (robotCell p).1 < grid_size ∧
       0 ≤ (robotCell p).2 ∧ (robotCell p).2 < grid_size) →
      updateOccupancyGrid p g r c = g r c) :=
  ⟨fun hb => updateOccupancyGrid_center hb, fun hb => updateOccupancyGrid_oob hb⟩

/-- C9 witness: the in-bounds part at the origin (cell (50,50) marked 100) and
the out-of-bounds part at x = 200 (cell (0,0) unchanged). -/
theorem c9_amended_witness :
    updateOccupancyGrid ⟨0, 0, 0⟩ zeroGrid (robotCell ⟨0, 0, 0⟩).2 (robotCell ⟨0, 0, 0⟩).1 = 100 ∧
    updateOccupancyGrid ⟨200, 0, 0⟩ zeroGrid 0 0 = zeroGrid 0 0 := by
  have hc : robotCell ⟨0, 0, 0⟩ = (50, 50) := by with_unfolding_all rfl
  have hc2 : robotCell ⟨200, 0, 0⟩ = (2050, 50) := by with_unfolding_all rfl
  constructor
  · exact (c9_amended ⟨0, 0, 0⟩ zeroGrid 0 0).1 (by rw [hc]; decide)
  · exact (c9_amended ⟨200, 0, 0⟩ zeroGrid 0 0).2 (by rw [hc2]; decide)

end Slam

namespace Slam

/-! ### Claim C3 -/

/-- C3: in any non-bootstrap cycle in which fewer than 8 matches survive the
top-30 selection or the homography estimation fails, position and yaw are
unchanged and no map points are added, but the stored reference frame,
keypoints and descriptors are replaced by those of the just-processed frame. -/
theorem c3_insufficient_matches (at2 : ℚ → ℚ → ℚ) (inp : CycleInput) (s : SlamState)
    (h1 : s.last_frame ≠ none) (h2 : s.last_keypoints ≠ none)
    (h3 : s.last_descriptors ≠ none)
    (hfail : (goodMatches inp.rawMatches).length < 8 ∨ inp.homography = none) :
    (processFrame at2 inp s).position = s.position ∧
    (processFrame at2 inp s).orientation.yaw = s.orientation.yaw ∧
    (processFrame at2 inp s).map_points = s.map_points ∧
    (processFrame at2 inp s).last_frame = some inp.gray ∧
    (processFrame at2 inp s).last_keypoints = some inp.keypoints ∧
    (processFrame at2 inp s).last_descriptors = inp.descriptors := by
  have hb : ¬ isBootstrap s := by simp [isBootstrap, h1, h2, h3]
  rw [processFrame_ready hb, visualActions_nil_of_insufficient hfail]
  simp [applyActions, appendTrajectory, storeFrame, fuseOrientation]

/-- C3 witness: `c3_insufficient_matches` at a concrete ready state and a
cycle input with an empty raw match list. -/
theorem c3_insufficient_matches_witness :
    readyState.last_frame ≠ none ∧ readyState.last_keypoints ≠ none ∧
    readyState.last_descriptors ≠ none ∧
    (goodMatches failInput.rawMatches).length < 8 ∧
    ((processFrame at2sample failInput readyState).position = readyState.position ∧
     (processFrame at2sample failInput readyState).orientation.yaw =
       readyState.orientation.yaw ∧
     (processFrame at2sample failInput readyState).map_points = readyState.map_points ∧
     (processFrame at2sample failInput readyState).last_frame = some failInput.gray ∧
     (processFrame at2sample failInput readyState).last_keypoints =
       some failInput.keypoints ∧
     (processFrame at2sample failInput readyState).last_descriptors =
       failInput.descriptors) :=
  ⟨by decide, by decide, by decide, by decide,
   c3_insufficient_matches at2sample failInput readyState (by decide) (by decide)
     (by decide) (Or.inl (by decide))⟩

/-! ### Claim C6 -/

/-- C6: in any non-bootstrap cycle whose guard passes, with at least 8 good
matches and a successfully estimated homography `H`, position.x and position.y
are incremented by `H[0,2]*0.01` and `H[1,2]*0.01`, position.z is unchanged,
and yaw is overwritten with the atan2-in-degrees of `(H[1,0], H[0,0])`
independently of its previous value. -/
theorem c6_position_integrates_yaw_overwrites (at2 : ℚ → ℚ → ℚ) (inp : CycleInput)
    (s : SlamState) (H : Homography)
    (h1 : s.last_frame ≠ none) (h2 : s.last_keypoints ≠ none)
    (h3 : s.last_descriptors ≠ none) (hg : matchGuard inp s)
    (hn : 8 ≤ (goodMatches inp.rawMatches).length) (hH : inp.homography = some H) :
    (processFrame at2 inp s).position.x = s.position.x + H.h02 * (1/100) ∧
    (processFrame at2 inp s).position.y = s.position.y + H.h12 * (1/100) ∧
    (processFrame at2 inp s).position.z = s.position.z ∧
    (processFrame at2 inp s).orientation.yaw = at2 H.h10 H.h00 := by
  have hb : ¬ isBootstrap s := by simp [isBootstrap, h1, h2, h3]
  rw [processFrame_ready hb, visualActions_success hg hn hH]
  simp [applyActions, appendTrajectory, storeFrame, fuseOrientation, updateMap,
    updatePositionFromHomography]

/-- C6 witness: with the sample homography (tx = 10, ty = 0) from the origin,
position.x increases by exactly 0.1 and position.y is unchanged. -/
theorem c6_position_integrates_witness :
    matchGuard sampleInput readyState ∧
    8 ≤ (goodMatches sampleInput.rawMatches).length ∧
    (processFrame at2sample sampleInput readyState).position.x = 1/10 ∧
    (processFrame at2sample sampleInput readyState).position.y = 0 := by
  have hlen : (goodMatches sampleInput.rawMatches).length = 8 := by
    with_unfolding_all rfl
  have h := c6_position_integrates_yaw_overwrites at2sample sampleInput readyState
    sampleH (by decide) (by decide) (by decide) (by decide) (by omega) rfl
  refine ⟨by decide, by omega, ?_, ?_⟩
  · rw [h.1]
    norm_num [readyState, initState, sampleH]
  · rw [h.2.1]
    norm_num [readyState, initState, sampleH]

/-! ### Claim C7 -/

/-- C7: in every non-bootstrap cycle — whether the visual update succeeded or
was skipped — the IMU-derived roll and pitch are copied unmodified into the
orientation, and the fusion block never modifies yaw. -/
theorem c7_fusion_copies_roll_pitch (at2 : ℚ → ℚ → ℚ) (inp : CycleInput) (s : SlamState)
    (h1 : s.last_frame ≠ none) (h2 : s.last_keypoints ≠ none)
    (h3 : s.last_descriptors ≠ none) :
    (processFrame at2 inp s).orientation.roll = inp.imuRoll ∧
    (processFrame at2 inp s).orientation.pitch = inp.imuPitch ∧
    (∀ (roll pitch : ℚ) (t : SlamState),
        (fuseOrientation roll pitch t).orientation.yaw = t.orientation.yaw) := by
  have hb : ¬ isBootstrap s := by simp [isBootstrap, h1, h2, h3]
  rw [processFrame_ready hb]
  exact ⟨by simp [applyActions, appendTrajectory, storeFrame, fuseOrientation],
    by simp [applyActions, appendTrajectory, storeFrame, fuseOrientation],
    fun _ _ _ => rfl⟩

/-- C7 witness: with the sample input the resulting roll and pitch are the
IMU values 5 and 6. -/
theorem c7_fusion_copies_roll_pitch_witness :
    (processFrame at2sample sampleInput readyState).orientation.roll = 5 ∧
    (processFrame at2sample sampleInput readyState).orientation.pitch = 6 :=
  ⟨(c7_fusion_copies_roll_pitch at2sample sampleInput readyState
      (by decide) (by decide) (by decide)).1,
   (c7_fusion_copies_roll_pitch at2sample sampleInput readyState
      (by decide) (by decide) (by decide)).2.1⟩

/-! ### Claim C10 -/

/-- C10: if a non-bootstrap cycle processes a frame with no descriptors, the
stored descriptor slot becomes `none`, so the next cycle re-enters the
bootstrap branch: it stores the new frame as reference and performs no pose,
map, orientation, trajectory or grid change — even though a prior frame
exists. -/
theorem c10_none_descriptors_rebootstrap (at2 : ℚ → ℚ → ℚ) (inp1 inp2 : CycleInput)
    (s : SlamState) (h1 : s.last_frame ≠ none) (h2 : s.last_keypoints ≠ none)
    (h3 : s.last_descriptors ≠ none) (hd : inp1.descriptors = none) :
    (processFrame at2 inp1 s).last_descriptors = none ∧
    (processFrame at2 inp2 (processFrame at2 inp1 s)).position =
      (processFrame at2 inp1 s).position ∧
    (processFrame at2 inp2 (processFrame at2 inp1 s)).orientation =
      (processFrame at2 inp1 s).orientation ∧
    (processFrame at2 inp2 (processFrame at2 inp1 s)).map_points =
      (processFrame at2 inp1 s).map_points ∧
    (processFrame at2 inp2 (processFrame at2 inp1 s)).trajectory =
      (processFrame at2 inp1 s).trajectory ∧
    (processFrame at2 inp2 (processFrame at2 inp1 s)).occupancy_grid =
      (processFrame at2 inp1 s).occupancy_grid ∧
    (processFrame at2 inp2 (processFrame at2 inp1 s)).last_frame = some inp2.gray ∧
    (processFrame at2 inp2 (processFrame at2 inp1 s)).last_keypoints =
      some inp2.keypoints ∧
    (processFrame at2 inp2 (processFrame at2 inp1 s)).last_descriptors =
      inp2.descriptors := by
  have hb : ¬ isBootstrap s := by simp [isBootstrap, h1, h2, h3]
  have hs1 : (processFrame at2 inp1 s).last_descriptors = none := by
    rw [processFrame_ready hb]
    simp [applyActions, appendTrajectory, storeFrame, fuseOrientation, hd]
  have hb1 : isBootstrap (processFrame at2 inp1 s) := Or.inr (Or.inr hs1)
  rw [processFrame_bootstrap hb1]
  exact ⟨hs1, rfl, rfl, rfl, rfl, rfl, rfl, rfl, rfl⟩

/-- C10 witness: `c10_none_descriptors_rebootstrap` at a concrete ready state,
a first input with no descriptors and the sample input as second frame. -/
theorem c10_none_descriptors_rebootstrap_witness :
    noDescInput.descriptors = none ∧
    ((processFrame at2sample noDescInput readyState).last_descriptors = none ∧
     (processFrame at2sample sampleInput (processFrame at2sample noDescInput readyState)).position =
       (processFrame at2sample noDescInput readyState).position ∧
     (processFrame at2sample sampleInput (processFrame at2sample noDescInput readyState)).orientation =
       (processFrame at2sample noDescInput readyState).orientation ∧
     (processFrame at2sample sampleInput (processFrame at2sample noDescInput readyState)).map_points =
       (processFrame at2sample noDescInput readyState).map_points ∧
     (processFrame at2sample sampleInput (processFrame at2sample noDescInput readyState)).trajectory =
       (processFrame at2sample noDescInput readyState).trajectory ∧
     (processFrame at2sample sampleInput (processFrame at2sample noDescInput readyState)).occupancy_grid =
       (processFrame at2sample noDescInput readyState).occupancy_grid ∧
     (processFrame at2sample sampleInput (processFrame at2sample noDescInput readyState)).last_frame =
       some sampleInput.gray ∧
     (processFrame at2sample sampleInput (processFrame at2sample noDescInput readyState)).last_keypoints =
       some sampleInput.keypoints ∧
     (processFrame at2sample sampleInput (processFrame at2sample noDescInput readyState)).last_descriptors =
       sampleInput.descriptors) :=
  ⟨by decide,
   c10_none_descriptors_rebootstrap at2sample noDescInput sampleInput readyState
     (by decide) (by decide) (by decide) (by decide)⟩

/-! ### Claim C4 -/

/-- C4: after any number of processed cycles from the initial state the
trajectory holds at most 100 entries and the map-point sequence at most 1000;
and in any non-bootstrap cycle the new trajectory is exactly the most recent
100 elements of the old trajectory plus the appended pose, and the new
map-point sequence is exactly the most recent 1000 elements of the old
sequence plus the appended points (FIFO eviction of the oldest). -/
theorem c4_bounded_fifo :
    (∀ (at2 : ℚ → ℚ → ℚ) (inps : List CycleInput),
        (runCycles at2 initState inps).trajectory.length ≤ 100 ∧
        (runCycles at2 initState inps).map_points.length ≤ 1000) ∧
    (∀ (at2 : ℚ → ℚ → ℚ) (inp : CycleInput) (s : SlamState),
        s.last_frame ≠ none → s.last_keypoints ≠ none → s.last_descriptors ≠ none →
        s.map_points.length ≤ 1000 →
        (processFrame at2 inp s).trajectory =
          lastN 100 (s.trajectory ++ [(processFrame at2 inp s).position]) ∧
        ∃ pts : List Pose,
          (processFrame at2 inp s).map_points = lastN 1000 (s.map_points ++ pts)) := by
  constructor
  · exact fun at2 inps => runCycles_caps at2 inps
  · intro at2 inp s h1 h2 h3 hm
    have hb : ¬ isBootstrap s := by simp [isBootstrap, h1, h2, h3]
    rw [processFrame_ready hb]
    rcases visualActions_cases at2 inp s with hv | ⟨H, hH, hv⟩ <;> rw [hv]
    · refine ⟨?_, [], ?_⟩
      · simp [applyActions, appendTrajectory, storeFrame, fuseOrientation,
          appendCapped_eq_lastN]
      · simp [applyActions, appendTrajectory, storeFrame, fuseOrientation,
          lastN_of_le hm]
    · refine ⟨?_, ?_⟩
      · simp [applyActions, appendTrajectory, storeFrame, fuseOrientation,
          appendCapped_eq_lastN, updateMap, updatePositionFromHomography]
      · refine ⟨(goodMatches inp.rawMatches).map (fun m =>
          projectPoint (updatePositionFromHomography at2 H s).position
            (inp.keypoints.getD m.train (0, 0))), ?_⟩
        simp only [applyActions, List.foldl_cons, List.foldl_nil, appendTrajectory,
          storeFrame, fuseOrientation, updateMap]
        rw [foldl_appendCapped_eq 1000 _ _ _ (by simpa [updatePositionFromHomography] using hm)]
        simp [updatePositionFromHomography]

/-- C4 witness: the bounds after one cycle from the initial state, and the
FIFO characterization of one concrete non-bootstrap cycle. -/
theorem c4_bounded_fifo_witness :
    ((runCycles at2sample initState [sampleInput]).trajectory.length ≤ 100 ∧
     (runCycles at2sample initState [sampleInput]).map_points.length ≤ 1000) ∧
    ((processFrame at2sample sampleInput readyState).trajectory =
        lastN 100 (readyState.trajectory ++
          [(processFrame at2sample sampleInput readyState).position]) ∧
      ∃ pts : List Pose,
        (processFrame at2sample sampleInput readyState).map_points =
          lastN 1000 (readyState.map_points ++ pts)) :=
  ⟨c4_bounded_fifo.1 at2sample [sampleInput],
   c4_bounded_fifo.2 at2sample sampleInput readyState (by decide) (by decide)
     (by decide) (by decide)⟩

end Slam

namespace Slam

/-! ### Claim C1 -/

/-- C1 counterexample: the cycle's writes are not one atomic unit with
respect to snapshot readers.  `_process_frame` takes the lock separately for
the pose update, the map/grid update, the roll/pitch fusion and the
trajectory append, so a reader acquiring the lock after the first block
(`snapshotAt … 1`) already sees the cycle's new position (x = 0.1) while the
occupancy grid, the trajectory and roll still hold the previous cycle's
values — unlike the state after the full cycle. -/
theorem c1_counterexample :
    (get_data (snapshotAt at2sample sampleInput readyState 1)).position.x = 1/10 ∧
    (get_data readyState).position.x = 0 ∧
    (get_data (processFrame at2sample sampleInput readyState)).position.x = 1/10 ∧
    (1/10 : ℚ) ≠ 0 ∧
    (get_data (snapshotAt at2sample sampleInput readyState 1)).occupancy_grid 50 51 = 0 ∧
    (get_data (processFrame at2sample sampleInput readyState)).occupancy_grid 50 51 = 100 ∧
    (get_data (snapshotAt at2sample sampleInput readyState 1)).trajectory = [] ∧
    (get_data (processFrame at2sample sampleInput readyState)).trajectory = [⟨1/10, 0, 0⟩] ∧
    (get_data (snapshotAt at2sample sampleInput readyState 1)).orientation.roll = 0 ∧
    (get_data (processFrame at2sample sampleInput readyState)).orientation.roll = 5 :=
  ⟨by with_unfolding_all rfl, by with_unfolding_all rfl, by with_unfolding_all rfl,
   by norm_num, by with_unfolding_all rfl, by with_unfolding_all rfl,
   by with_unfolding_all rfl, by with_unfolding_all rfl, by with_unfolding_all rfl,
   by with_unfolding_all rfl⟩

/-- C1 amended: position and yaw are written in the same lock-protected block,
so every snapshot taken at any action boundary of an in-flight cycle observes
a consistent position/yaw pair — either both pre-cycle or both post-update —
while the map, grid, roll/pitch and trajectory writes live in later,
separately locked blocks and may still be pending. -/
theorem c1_pose_pair_atomic (at2 : ℚ → ℚ → ℚ) (inp : CycleInput) (s : SlamState) (k : ℕ) :
    ((snapshotAt at2 inp s k).position = s.position ∧
     (snapshotAt at2 inp s k).orientation.yaw = s.orientation.yaw) ∨
    (∃ H, inp.homography = some H ∧
      (snapshotAt at2 inp s k).position.x = s.position.x + H.h02 * (1/100) ∧
      (snapshotAt at2 inp s k).position.y = s.position.y + H.h12 * (1/100) ∧
      (snapshotAt at2 inp s k).position.z = s.position.z ∧
      (snapshotAt at2 inp s k).orientation.yaw = at2 H.h10 H.h00) := by
  unfold snapshotAt
  by_cases hb : isBootstrap s
  · rw [cycleActions_bootstrap hb]
    left
    cases k with
    | zero => exact ⟨rfl, rfl⟩
    | succ k => simp [applyActions, storeFrame]
  · rw [cycleActions_ready hb]
    rcases visualActions_cases at2 inp s with hv | ⟨H, hH, hv⟩ <;> rw [hv]
    · left
      rcases k with _ | _ | _ | k <;>
        simp [applyActions, List.take, fuseOrientation, storeFrame, appendTrajectory]
    · rcases k with _ | _ | _ | _ | _ | k
      · left
        exact ⟨rfl, rfl⟩
      · right
        exact ⟨H, hH, by simp [applyActions, List.take, updatePositionFromHomography],
          by simp [applyActions, List.take, updatePositionFromHomography],
          by simp [applyActions, List.take, updatePositionFromHomography],
          by simp [applyActions, List.take, updatePositionFromHomography]⟩
      · right
        refine ⟨H, hH, ?_, ?_, ?_, ?_⟩ <;>
          simp [applyActions, List.take, updatePositionFromHomography, updateMap]
      · right
        refine ⟨H, hH, ?_, ?_, ?_, ?_⟩ <;>
          simp [applyActions, List.take, updatePositionFromHomography, updateMap,
            fuseOrientation]
      · right
        refine ⟨H, hH, ?_, ?_, ?_, ?_⟩ <;>
          simp [applyActions, List.take, updatePositionFromHomography, updateMap,
            fuseOrientation, storeFrame]
      · right
        refine ⟨H, hH, ?_, ?_, ?_, ?_⟩ <;>
          simp [applyActions, List.take, updatePositionFromHomography, updateMap,
            fuseOrientation, storeFrame, appendTrajectory]

/-! ### Claim C8 -/

/-- C8 counterexample: `get_data` returns `self.trajectory.copy()`, a shallow
copy — the returned list is a fresh object but its entries are the same pose
dicts the internal trajectory holds.  Mutating an entry reached through the
returned list changes the processor's internal trajectory view. -/
theorem c8_counterexample :
    (copyTrajectory heap0 0 1).listAt 1 = [5] ∧
    viewTrajectory heap0 0 = [⟨1, 2, 0⟩] ∧
    viewTrajectory (writeDict (copyTrajectory heap0 0 1) 5 ⟨9, 9, 9⟩) 0 = [⟨9, 9, 9⟩] ∧
    viewTrajectory (writeDict (copyTrajectory heap0 0 1) 5 ⟨9, 9, 9⟩) 0 ≠
      viewTrajectory heap0 0 := by
  refine ⟨by with_unfolding_all rfl, by with_unfolding_all rfl,
    by with_unfolding_all rfl, ?_⟩
  have e1 : viewTrajectory (writeDict (copyTrajectory heap0 0 1) 5 ⟨9, 9, 9⟩) 0 =
      [(⟨9, 9, 9⟩ : Pose)] := by with_unfolding_all rfl
  have e2 : viewTrajectory heap0 0 = [(⟨1, 2, 0⟩ : Pose)] := by with_unfolding_all rfl
  rw [e1, e2]
  simp only [ne_eq, List.cons.injEq, Pose.mk.injEq, and_true, not_and]
  intro h9
  norm_num at h9

/-- C8 amended: the returned position (and orientation/grid, analogously) is
a value copy, and the returned trajectory list is itself a freshly allocated
object — replacing its contents or mutating the returned position dict leaves
the internal objects unchanged; only the trajectory's entry dicts are shared
(see the counterexample). -/
theorem c8_fresh_objects (h : PyHeap) (trajRef posRef freshL freshD : ℕ)
    (xs : List ℕ) (p : Pose) (hL : freshL ≠ trajRef) (hD : freshD ≠ posRef) :
    (writeList (copyTrajectory h trajRef freshL) freshL xs).listAt trajRef =
      h.listAt trajRef ∧
    (writeDict (copyPosition h posRef freshD) freshD p).dictAt posRef =
      h.dictAt posRef := by
  constructor
  · simp [writeList, copyTrajectory, Ne.symm hL]
  · simp [writeDict, copyPosition, Ne.symm hD]

/-- C8 witness: `c8_fresh_objects` on the concrete store. -/
theorem c8_fresh_objects_witness :
    (1 : ℕ) ≠ 0 ∧ (3 : ℕ) ≠ 2 ∧
    ((writeList (copyTrajectory heap0 0 1) 1 []).listAt 0 = heap0.listAt 0 ∧
     (writeDict (copyPosition heap0 2 3) 3 ⟨7, 7, 7⟩).dictAt 2 = heap0.dictAt 2) :=
  ⟨by decide, by decide,
   c8_fresh_objects heap0 0 2 1 3 [] ⟨7, 7, 7⟩ (by decide) (by decide)⟩

end Slam
